import Mathlib

/-!
Shallow embedding of the noiseapp repository:
the React component src/frontend/src/components/FileUpload.tsx and the
Express server src/backend/src/index.js. Component state is passed
explicitly; the network (the inference endpoint fetch and the onUpload
promise) is an explicit environment value; the sequencing of the two
awaited calls in handleSubmit is recorded as an event trace.
-/

/-- The fields of a browser File object that the component reads
(name, size, type, lastModified). -/
structure FileData where
  name : String
  size : Nat
  type : String
  lastModified : Int
deriving DecidableEq, Repr

/-- `ClassificationResult` from FileUpload.tsx: a label and a score. -/
structure ClassificationResult where
  label : String
  score : Rat
deriving DecidableEq, Repr

/-- The `topPrediction` object built in handleSubmit. -/
structure TopPrediction where
  label : String
  confidence : Rat
deriving DecidableEq, Repr

/-- `UploadedFileInfo` from FileUpload.tsx. The `classification` and
`topPrediction` fields are optional in the TypeScript type. -/
structure UploadedFileInfo where
  name : String
  size : Nat
  type : String
  lastModified : Int
  location : String
  uploadTime : String
  classification : Option (List ClassificationResult)
  topPrediction : Option TopPrediction
deriving DecidableEq, Repr

/-- The eight useState cells of the FileUpload component. -/
structure ComponentState where
  file : Option FileData
  location : String
  isUploading : Bool
  isClassifying : Bool
  error : Option String
  dragActive : Bool
  uploadedFiles : List UploadedFileInfo
  classificationResult : Option (List ClassificationResult)
deriving DecidableEq, Repr

/-- The initial state of the component (all useState initial values). -/
def initialState : ComponentState :=
  { file := none, location := "", isUploading := false, isClassifying := false,
    error := none, dragActive := false, uploadedFiles := [], classificationResult := none }

/-- JavaScript String.prototype.trim as used by the location guard:
strip leading and trailing whitespace. Written by structural recursion on
the character list so that it evaluates inside proofs. -/
def jsTrim (s : String) : String :=
  ⟨((s.data.dropWhile Char.isWhitespace).reverse.dropWhile Char.isWhitespace).reverse⟩

/-- Outcome of the single fetch to the inference endpoint: either the fetch
itself rejects (network error), or a response arrives with a status, a
status text and a JSON body (a list of label/score objects). -/
inductive FetchOutcome where
  | networkFailure (msg : String) : FetchOutcome
  | response (status : Nat) (statusText : String) (body : List ClassificationResult) : FetchOutcome
deriving DecidableEq, Repr

/-- Environment seen by classifyAudio: the module-level HF_API_TOKEN
(read once from import.meta.env.VITE_HF_API_TOKEN; none models undefined)
and the outcome the network would give to the one fetch call. -/
structure ClassifyEnv where
  token : Option String
  fetch : FetchOutcome
deriving DecidableEq, Repr

/-- JavaScript truthiness of HF_API_TOKEN: undefined and the empty string
are falsy, every other string is truthy. -/
def tokenConfigured : Option String → Bool
  | none => false
  | some t => t != ""

/-- response.ok of the Fetch API: status in the range 200 to 299. -/
def responseOk (status : Nat) : Bool :=
  200 ≤ status && status < 300

/-- The value classifyAudio returns or the message of the error it throws,
after the catch block has wrapped every failure in the prefix
"Classification failed: " (FileUpload.tsx lines 89 to 133). -/
def classifyOutcome (token : Option String) (fetch : FetchOutcome) :
    Except String (List ClassificationResult) :=
  if tokenConfigured token = false then
    .error "Classification failed: Hugging Face API token is not configured"
  else
    match fetch with
    | .networkFailure msg => .error ("Classification failed: " ++ msg)
    | .response status statusText body =>
      if responseOk status then
        .ok body
      else if status == 503 then
        .error "Classification failed: Model is loading, please wait a moment and try again"
      else
        .error ("Classification failed: Endpoint error: " ++ toString status ++ " - " ++ statusText)

/-- Number of fetch calls one run of classifyAudio performs: the single
fetch at line 98 runs unless the token check threw first; there is no
retry loop. -/
def fetchCount (token : Option String) : Nat :=
  if tokenConfigured token then 1 else 0

/-- Net effect of classifyAudio on component state: it sets isClassifying
true and clears classificationResult on entry, stores the parsed result on
success, and resets isClassifying in the finally block. -/
def classifyAudioState (env : ClassifyEnv) (s : ComponentState) : ComponentState :=
  let s1 := { s with isClassifying := true, classificationResult := none }
  let s2 :=
    match classifyOutcome env.token env.fetch with
    | .ok r => { s1 with classificationResult := some r }
    | .error _ => s1
  { s2 with isClassifying := false }

/-- classifyAudio: resulting state, returned value or thrown message, and
the number of fetch requests made. -/
def classifyAudio (env : ClassifyEnv) (s : ComponentState) :
    ComponentState × Except String (List ClassificationResult) × Nat :=
  (classifyAudioState env s, classifyOutcome env.token env.fetch, fetchCount env.token)

/-- Environment of one submission: the classify environment plus the
outcome of the awaited onUpload promise and the clock string
new Date().toLocaleString(). -/
structure SubmitEnv where
  token : Option String
  fetch : FetchOutcome
  uploadResult : Except String Unit
  now : String
deriving Repr

/-- Events recording the order of the two awaited calls in handleSubmit.
uploadCall carries the arguments passed to the onUpload callback. -/
inductive Event where
  | classifyCall : Event
  | classifyDone : Event
  | uploadCall : FileData → String → Event
  | uploadDone : Event
deriving DecidableEq, Repr

/-- The reduce at lines 160 to 165: with a non-empty list, JavaScript
reduce without an initial value folds from the left starting at the head,
keeping the current element only when its score is strictly greater. -/
def betterOf (max current : ClassificationResult) : ClassificationResult :=
  if current.score > max.score then current else max

/-- topPrediction as computed in handleSubmit: the default
(label unknown, confidence 0) when the list is empty, otherwise the
left fold of betterOf over the list. -/
def topOf (classification : List ClassificationResult) : TopPrediction :=
  match classification with
  | [] => { label := "unknown", confidence := 0 }
  | x :: xs =>
    let top := xs.foldl betterOf x
    { label := top.label, confidence := top.score }

/-- The tail of handleSubmit after classification has been resolved
(lines 172 to 200): await onUpload, then on success prepend the
UploadedFileInfo record and reset the form, on rejection set the error;
the finally block resets isUploading. -/
def finishSubmit (env : SubmitEnv) (f : FileData) (loc : String) (s3 : ComponentState)
    (classification : List ClassificationResult) (top : TopPrediction) :
    ComponentState × List Event :=
  let events := [Event.classifyCall, Event.classifyDone, Event.uploadCall f loc, Event.uploadDone]
  match env.uploadResult with
  | .error msg => ({ s3 with error := some msg, isUploading := false }, events)
  | .ok _ =>
    let info : UploadedFileInfo :=
      { name := f.name, size := f.size, type := f.type, lastModified := f.lastModified,
        location := loc, uploadTime := env.now,
        classification := some classification, topPrediction := some top }
    ({ s3 with uploadedFiles := info :: s3.uploadedFiles,
               file := none, location := "", classificationResult := none,
               isUploading := false }, events)

/-- The body of the outer try of handleSubmit (lines 148 to 200), entered
once both guards have passed: set isUploading, clear the error, run
classifyAudio inside the inner try/catch (a thrown classification error
sets the error message and leaves classification empty and topPrediction
at its unknown default), then proceed to the upload step. -/
def submitCore (env : SubmitEnv) (f : FileData) (loc : String) (s : ComponentState) :
    ComponentState × List Event :=
  let s1 := { s with isUploading := true, error := none }
  let res := classifyAudio { token := env.token, fetch := env.fetch } s1
  match res.2.1 with
  | .ok c => finishSubmit env f loc res.1 c (topOf c)
  | .error msg =>
    finishSubmit env f loc { res.1 with error := some ("Audio classification failed: " ++ msg) }
      [] { label := "unknown", confidence := 0 }

/-- handleSubmit (lines 136 to 201): guard on a selected file, guard on a
non-blank location, then the classify and upload sequence. The second
component is the trace of awaited calls, in order. -/
def handleSubmit (env : SubmitEnv) (s : ComponentState) : ComponentState × List Event :=
  match s.file with
  | none => ({ s with error := some "Please select a file to upload" }, [])
  | some f =>
    if jsTrim s.location = "" then
      ({ s with error := some "Please enter a location" }, [])
    else
      submitCore env f s.location s

/-- The MP3 acceptance test shared by handleDrop and handleFileChange:
MIME type audio/mpeg or a name ending in .mp3. -/
def acceptsFile (f : FileData) : Bool :=
  f.type == "audio/mpeg" || f.name.endsWith ".mp3"

/-- handleDrop (lines 55 to 69): clear dragActive; when a file was
dropped, accept it or set the rejection error. -/
def handleDrop (dropped : Option FileData) (s : ComponentState) : ComponentState :=
  let s0 := { s with dragActive := false }
  match dropped with
  | none => s0
  | some f =>
    if acceptsFile f then
      { s0 with file := some f, error := none, classificationResult := none }
    else
      { s0 with error := some "Please upload an MP3 file" }

/-- handleFileChange (lines 71 to 82): same acceptance logic from the
file picker, without touching dragActive. -/
def handleFileChange (selected : Option FileData) (s : ComponentState) : ComponentState :=
  match selected with
  | none => s
  | some f =>
    if acceptsFile f then
      { s with file := some f, error := none, classificationResult := none }
    else
      { s with error := some "Please upload an MP3 file" }

/-- HTTP methods used by the backend routes. -/
inductive Method where
  | get : Method
  | post : Method
deriving DecidableEq, Repr

/-- A response body: res.send of a plain string, or res.json of an object
with a single message field. -/
inductive ResBody where
  | text (s : String) : ResBody
  | json (message : String) : ResBody
deriving DecidableEq, Repr

/-- An HTTP response: status code and body. -/
structure HttpResponse where
  status : Nat
  body : ResBody
deriving DecidableEq, Repr

/-- The two routes of src/backend/src/index.js. The request body argument
is never examined; an unmatched route yields none. -/
def backendHandle (m : Method) (path : String) (_reqBody : String) : Option HttpResponse :=
  match m with
  | .get => if path = "/" then some { status := 200, body := .text "Hello World!" } else none
  | .post =>
    if path = "/upload" then some { status := 201, body := .json "File uploaded successfully" }
    else none

/-- The running backend: app.listen(PORT, ...) keeps the PORT environment
variable and serves the two routes. -/
structure Backend where
  port : Option String
  handle : Method → String → String → Option HttpResponse

/-- Starting the server with the once-read process.env.PORT value. -/
def startBackend (portEnv : Option String) : Backend :=
  { port := portEnv, handle := backendHandle }

/-- Running check that at every prefix of a trace at most one awaited
operation is in flight: a call may start only when nothing is in flight
and a completion requires exactly one in-flight operation. -/
def flightCountOk : Nat → List Event → Bool
  | _, [] => true
  | n, Event.classifyCall :: rest => (n == 0) && flightCountOk (n + 1) rest
  | n, Event.classifyDone :: rest => (n == 1) && flightCountOk (n - 1) rest
  | n, Event.uploadCall _ _ :: rest => (n == 0) && flightCountOk (n + 1) rest
  | n, Event.uploadDone :: rest => (n == 1) && flightCountOk (n - 1) rest

/-- Every invocation of the onUpload callback in the trace happens after
the classification call has completed (returned or thrown). -/
def uploadsAfterClassifyDone : Bool → List Event → Bool
  | _, [] => true
  | seen, Event.uploadCall _ _ :: rest => seen && uploadsAfterClassifyDone seen rest
  | _, Event.classifyDone :: rest => uploadsAfterClassifyDone true rest
  | seen, _ :: rest => uploadsAfterClassifyDone seen rest

/-! ## Concrete fixtures used by witnesses and counterexamples -/

/-- A valid MP3 file. -/
def fA : FileData := { name := "a.mp3", size := 10, type := "audio/mpeg", lastModified := 0 }

/-- A state with a selected file and a non-blank location. -/
def sReady : ComponentState := { initialState with file := some fA, location := "park" }

/-- A state with a selected file but a whitespace-only location. -/
def sBlankLoc : ComponentState := { initialState with file := some fA, location := " " }

/-- A classification result with score one half. -/
def cLow : ClassificationResult := { label := "low", score := 1/2 }

/-- A classification result with score nine tenths. -/
def cHigh : ClassificationResult := { label := "high", score := 9/10 }

/-- Classify environment with no token configured. -/
def envNoToken : ClassifyEnv := { token := none, fetch := FetchOutcome.response 200 "OK" [cLow] }

/-- Classify environment that answers 503. -/
def env503 : ClassifyEnv :=
  { token := some "tok", fetch := FetchOutcome.response 503 "Service Unavailable" [] }

/-- Submission in which the token is missing and onUpload rejects. -/
def envC1bad : SubmitEnv :=
  { token := none, fetch := FetchOutcome.response 200 "OK" [],
    uploadResult := Except.error "boom", now := "n" }

/-- Submission in which the token is missing and onUpload resolves. -/
def envC1ok : SubmitEnv :=
  { token := none, fetch := FetchOutcome.response 200 "OK" [],
    uploadResult := Except.ok (), now := "n" }

/-- Submission with a successful classification of two results. -/
def envC3 : SubmitEnv :=
  { token := some "tok", fetch := FetchOutcome.response 200 "OK" [cLow, cHigh],
    uploadResult := Except.ok (), now := "n" }

/-! ## Helper lemmas -/

/-- betterOf keeps the current element exactly when it strictly beats the
running maximum. -/
theorem betterOf_pos {a x : ClassificationResult} (h : a.score < x.score) :
    betterOf a x = x := if_pos h

/-- betterOf keeps the accumulator when the current element does not
strictly beat it. -/
theorem betterOf_neg {a x : ClassificationResult} (h : ¬ a.score < x.score) :
    betterOf a x = a := if_neg h

/-- Invariant of the left fold of betterOf: either no element strictly
beat the accumulator and the fold returns the accumulator with every
element at most its score, or the fold returns an element of the list,
strictly greater than the accumulator and than everything before it in
the list, with nothing after it strictly greater. -/
theorem foldl_betterOf_spec (xs : List ClassificationResult) (a : ClassificationResult) :
    (xs.foldl betterOf a = a ∧ ∀ y ∈ xs, y.score ≤ a.score) ∨
    (∃ l₁ l₂, xs = l₁ ++ xs.foldl betterOf a :: l₂ ∧
      a.score < (xs.foldl betterOf a).score ∧
      (∀ y ∈ l₁, y.score < (xs.foldl betterOf a).score) ∧
      (∀ y ∈ l₂, y.score ≤ (xs.foldl betterOf a).score)) := by
  induction xs generalizing a with
  | nil => exact Or.inl ⟨rfl, by simp⟩
  | cons x xs ih =>
    rw [List.foldl_cons]
    by_cases hx : a.score < x.score
    · rw [betterOf_pos hx]
      rcases ih x with ⟨heq, hall⟩ | ⟨l₁, l₂, hsplit, hlt, h₁, h₂⟩
      · refine Or.inr ⟨[], xs, ?_, ?_, ?_, ?_⟩
        · rw [heq]; rfl
        · rw [heq]; exact hx
        · intro y hy; exact absurd hy (List.not_mem_nil y)
        · intro y hy; rw [heq]; exact hall y hy
      · refine Or.inr ⟨x :: l₁, l₂, ?_, ?_, ?_, ?_⟩
        · rw [List.cons_append, ← hsplit]
        · exact lt_trans hx hlt
        · intro y hy
          rcases List.mem_cons.mp hy with rfl | hy'
          · exact hlt
          · exact h₁ y hy'
        · exact h₂
    · rw [betterOf_neg hx]
      rcases ih a with ⟨heq, hall⟩ | ⟨l₁, l₂, hsplit, hlt, h₁, h₂⟩
      · refine Or.inl ⟨heq, ?_⟩
        intro y hy
        rcases List.mem_cons.mp hy with rfl | hy'
        · exact le_of_not_lt hx
        · exact hall y hy'
      · refine Or.inr ⟨x :: l₁, l₂, ?_, ?_, ?_, ?_⟩
        · rw [List.cons_append, ← hsplit]
        · exact hlt
        · intro y hy
          rcases List.mem_cons.mp hy with rfl | hy'
          · exact lt_of_le_of_lt (le_of_not_lt hx) hlt
          · exact h₁ y hy'
        · exact h₂

/-- For a non-empty list, topOf returns the label and score of the first
maximal element of the list in list order. -/
theorem topOf_spec (c : List ClassificationResult) (h : c ≠ []) :
    ∃ t l₁ l₂, topOf c = { label := t.label, confidence := t.score } ∧
      c = l₁ ++ t :: l₂ ∧ (∀ y ∈ l₁, y.score < t.score) ∧ (∀ y ∈ c, y.score ≤ t.score) := by
  match c with
  | [] => exact absurd rfl h
  | x :: xs =>
    refine ⟨xs.foldl betterOf x, ?_⟩
    rcases foldl_betterOf_spec xs x with ⟨heq, hall⟩ | ⟨l₁, l₂, hsplit, hlt, h₁, h₂⟩
    · refine ⟨[], xs, rfl, ?_, ?_, ?_⟩
      · rw [heq]; rfl
      · intro y hy; exact absurd hy (List.not_mem_nil y)
      · intro y hy
        rcases List.mem_cons.mp hy with rfl | hy'
        · rw [heq]
        · rw [heq]; exact hall y hy'
    · refine ⟨x :: l₁, l₂, rfl, ?_, ?_, ?_⟩
      · rw [List.cons_append, ← hsplit]
      · intro y hy
        rcases List.mem_cons.mp hy with rfl | hy'
        · exact hlt
        · exact h₁ y hy'
      · intro y hy
        rcases List.mem_cons.mp hy with rfl | hy'
        · exact le_of_lt hlt
        · rw [hsplit] at hy'
          rcases List.mem_append.mp hy' with hmem | hmem
          · exact le_of_lt (h₁ y hmem)
          · rcases List.mem_cons.mp hmem with rfl | hmem'
            · exact le_refl _
            · exact h₂ y hmem'

/-- Reduction of handleSubmit once both guards pass. -/
theorem handleSubmit_guarded (env : SubmitEnv) (s : ComponentState) (f : FileData)
    (hf : s.file = some f) (hl : jsTrim s.location ≠ "") :
    handleSubmit env s = submitCore env f s.location s := by
  unfold handleSubmit
  rw [hf]
  simp only [if_neg hl]

/-! ## Claims -/

/-- C5: every POST to /upload, whatever its body, is answered with 201
and the JSON message File uploaded successfully, and every GET of the
root path is answered with 200 and the text Hello World!. -/
theorem c5_backend_routes (reqBody : String) :
    backendHandle Method.post "/upload" reqBody =
      some { status := 201, body := ResBody.json "File uploaded successfully" } ∧
    backendHandle Method.get "/" reqBody =
      some { status := 200, body := ResBody.text "Hello World!" } :=
  ⟨rfl, rfl⟩

/-- C4: a dropped or picked file is accepted (stored, prior error and
prior classification result cleared) exactly when its MIME type is
audio/mpeg or its name ends in .mp3; otherwise the pending file is left
unchanged and the error is set to the rejection message. -/
theorem c4_mp3_filter (s : ComponentState) (f : FileData) :
    ((f.type = "audio/mpeg" ∨ f.name.endsWith ".mp3" = true) →
      handleDrop (some f) s =
        { s with dragActive := false, file := some f, error := none,
                 classificationResult := none } ∧
      handleFileChange (some f) s =
        { s with file := some f, error := none, classificationResult := none }) ∧
    (¬ (f.type = "audio/mpeg" ∨ f.name.endsWith ".mp3" = true) →
      handleDrop (some f) s =
        { s with dragActive := false, error := some "Please upload an MP3 file" } ∧
      handleFileChange (some f) s =
        { s with error := some "Please upload an MP3 file" }) := by
  have hiff : acceptsFile f = true ↔ (f.type = "audio/mpeg" ∨ f.name.endsWith ".mp3" = true) := by
    simp [acceptsFile]
  constructor
  · intro h
    have ha : acceptsFile f = true := hiff.mpr h
    exact ⟨by simp [handleDrop, ha], by simp [handleFileChange, ha]⟩
  · intro h
    have ha : acceptsFile f = false := by
      rcases Bool.eq_false_or_eq_true (acceptsFile f) with hb | hb
      · exact absurd (hiff.mp hb) h
      · exact hb
    exact ⟨by simp [handleDrop, ha], by simp [handleFileChange, ha]⟩

/-- Witness for C4 at the concrete MP3 file fA and the initial state. -/
theorem c4_mp3_filter_witness :
    handleDrop (some fA) initialState =
      { initialState with dragActive := false, file := some fA, error := none,
                          classificationResult := none } ∧
    handleFileChange (some fA) initialState =
      { initialState with file := some fA, error := none, classificationResult := none } :=
  (c4_mp3_filter initialState fA).1 (Or.inl rfl)

/-- C9: with no selected file handleSubmit only records the select-a-file
error, and with a selected file but a blank location it only records the
enter-a-location error; in both cases the rest of the state, the history
included, is unchanged and no classify or upload event happens. -/
theorem c9_guards (env : SubmitEnv) (s : ComponentState) :
    (s.file = none →
      handleSubmit env s = ({ s with error := some "Please select a file to upload" }, [])) ∧
    (∀ f, s.file = some f → jsTrim s.location = "" →
      handleSubmit env s = ({ s with error := some "Please enter a location" }, [])) := by
  constructor
  · intro h
    unfold handleSubmit
    rw [h]
  · intro f hf hl
    unfold handleSubmit
    rw [hf]
    simp only [if_pos hl]

/-- Witness for C9: both guards exercised on concrete states. -/
theorem c9_guards_witness :
    handleSubmit envC1ok initialState =
      ({ initialState with error := some "Please select a file to upload" }, []) ∧
    handleSubmit envC1ok sBlankLoc =
      ({ sBlankLoc with error := some "Please enter a location" }, []) :=
  ⟨(c9_guards envC1ok initialState).1 rfl,
   (c9_guards envC1ok sBlankLoc).2 fA rfl (by decide)⟩

/-- C2: a submission that passes both guards and whose onUpload promise
resolves changes the history exactly by prepending one new entry in
front of the previous list. -/
theorem c2_history_prepend (env : SubmitEnv) (s : ComponentState) (f : FileData)
    (hf : s.file = some f) (hl : jsTrim s.location ≠ "")
    (hu : env.uploadResult = Except.ok ()) :
    ∃ entry, (handleSubmit env s).1.uploadedFiles = entry :: s.uploadedFiles := by
  rw [handleSubmit_guarded env s f hf hl]
  unfold submitCore
  cases hc : classifyOutcome env.token env.fetch with
  | ok c =>
    simp only [classifyAudio, classifyAudioState, finishSubmit, hc, hu]
    exact ⟨_, rfl⟩
  | error msg =>
    simp only [classifyAudio, classifyAudioState, finishSubmit, hc, hu]
    exact ⟨_, rfl⟩

/-- Witness for C2 at a concrete ready state. -/
theorem c2_history_prepend_witness :
    ∃ entry, (handleSubmit envC3 sReady).1.uploadedFiles = entry :: sReady.uploadedFiles :=
  c2_history_prepend envC3 sReady fA rfl (by decide) rfl

/-- C3: when classifyAudio returns a non-empty list and the submission
completes, the recorded topPrediction carries the label and score of the
first maximal element of that list: an element at least as large as every
element, with everything before it strictly smaller. -/
theorem c3_top_prediction (env : SubmitEnv) (s : ComponentState) (f : FileData)
    (c : List ClassificationResult)
    (hf : s.file = some f) (hl : jsTrim s.location ≠ "")
    (hc : classifyOutcome env.token env.fetch = Except.ok c) (hne : c ≠ [])
    (hu : env.uploadResult = Except.ok ()) :
    ∃ entry t l₁ l₂,
      (handleSubmit env s).1.uploadedFiles = entry :: s.uploadedFiles ∧
      entry.topPrediction = some { label := t.label, confidence := t.score } ∧
      c = l₁ ++ t :: l₂ ∧
      (∀ y ∈ l₁, y.score < t.score) ∧
      (∀ y ∈ c, y.score ≤ t.score) := by
  obtain ⟨t, l₁, l₂, htop, hsplit, h₁, h₂⟩ := topOf_spec c hne
  rw [handleSubmit_guarded env s f hf hl]
  unfold submitCore
  simp only [classifyAudio, classifyAudioState, finishSubmit, hc, hu]
  exact ⟨_, t, l₁, l₂, rfl, by rw [htop], hsplit, h₁, h₂⟩

/-- Witness for C3 on the two-element list with the larger score second. -/
theorem c3_top_prediction_witness :
    ∃ entry t l₁ l₂,
      (handleSubmit envC3 sReady).1.uploadedFiles = entry :: sReady.uploadedFiles ∧
      entry.topPrediction = some { label := t.label, confidence := t.score } ∧
      [cLow, cHigh] = l₁ ++ t :: l₂ ∧
      (∀ y ∈ l₁, y.score < t.score) ∧
      (∀ y ∈ [cLow, cHigh], y.score ≤ t.score) :=
  c3_top_prediction envC3 sReady fA [cLow, cHigh] rfl (by decide) rfl (by decide) rfl

/-- C1 counterexample: with a selected file, a non-blank location and a
thrown classification (missing token), the onUpload callback is invoked
with the same file and location, yet no history entry is prepended,
because the onUpload promise rejected; the claim that a classification
failure always leads to a prepended entry is therefore false as stated. -/
theorem c1_counterexample :
    classifyOutcome envC1bad.token envC1bad.fetch =
      Except.error "Classification failed: Hugging Face API token is not configured" ∧
    (handleSubmit envC1bad sReady).2 =
      [Event.classifyCall, Event.classifyDone, Event.uploadCall fA "park", Event.uploadDone] ∧
    (handleSubmit envC1bad sReady).1.uploadedFiles = [] :=
  ⟨rfl, rfl, rfl⟩

/-- C1 (amended): with a selected file and a non-blank location, a thrown
classification still lets handleSubmit invoke the onUpload callback with
the same file and location; and provided the onUpload promise resolves, a
history entry is prepended whose topPrediction is the label unknown with
confidence 0. -/
theorem c1_failure_does_not_block (env : SubmitEnv) (s : ComponentState) (f : FileData)
    (msg : String)
    (hf : s.file = some f) (hl : jsTrim s.location ≠ "")
    (hc : classifyOutcome env.token env.fetch = Except.error msg) :
    Event.uploadCall f s.location ∈ (handleSubmit env s).2 ∧
    (env.uploadResult = Except.ok () →
      ∃ entry, (handleSubmit env s).1.uploadedFiles = entry :: s.uploadedFiles ∧
        entry.topPrediction = some { label := "unknown", confidence := 0 }) := by
  rw [handleSubmit_guarded env s f hf hl]
  unfold submitCore
  simp only [classifyAudio, classifyAudioState, hc]
  constructor
  · unfold finishSubmit
    cases env.uploadResult <;> simp
  · intro hu
    simp only [finishSubmit, hu]
    exact ⟨_, rfl, rfl⟩

/-- Witness for C1 (amended) with a missing token and a resolving
onUpload promise. -/
theorem c1_failure_does_not_block_witness :
    Event.uploadCall fA sReady.location ∈ (handleSubmit envC1ok sReady).2 ∧
    (envC1ok.uploadResult = Except.ok () →
      ∃ entry, (handleSubmit envC1ok sReady).1.uploadedFiles = entry :: sReady.uploadedFiles ∧
        entry.topPrediction = some { label := "unknown", confidence := 0 }) :=
  c1_failure_does_not_block envC1ok sReady fA
    "Classification failed: Hugging Face API token is not configured" rfl (by decide) rfl

/-- C6: when the endpoint answers 503 (with a configured token, so the
one fetch actually ran), classifyAudio makes exactly one request and
throws the model-is-loading message telling the caller to try again. -/
theorem c6_503_no_retry (env : ClassifyEnv) (s : ComponentState) (statusText : String)
    (raw : List ClassificationResult)
    (ht : tokenConfigured env.token = true)
    (hf : env.fetch = FetchOutcome.response 503 statusText raw) :
    (classifyAudio env s).2.2 = 1 ∧
    (classifyAudio env s).2.1 =
      Except.error "Classification failed: Model is loading, please wait a moment and try again" := by
  constructor
  · simp [classifyAudio, fetchCount, ht]
  · simp [classifyAudio, classifyOutcome, responseOk, ht, hf]

/-- Witness for C6 on a concrete 503 answer. -/
theorem c6_503_no_retry_witness :
    (classifyAudio env503 initialState).2.2 = 1 ∧
    (classifyAudio env503 initialState).2.1 =
      Except.error "Classification failed: Model is loading, please wait a moment and try again" :=
  c6_503_no_retry env503 initialState "Service Unavailable" [] rfl rfl

/-- C7: in every submission the two awaited calls are strictly
sequential: at most one operation is ever in flight, every onUpload
invocation happens after the classification call completed, and once both
guards pass the trace is exactly classify start, classify done, upload
start, upload done. -/
theorem c7_sequential (env : SubmitEnv) (s : ComponentState) :
    flightCountOk 0 (handleSubmit env s).2 = true ∧
    uploadsAfterClassifyDone false (handleSubmit env s).2 = true ∧
    (∀ f, s.file = some f → jsTrim s.location ≠ "" →
      (handleSubmit env s).2 =
        [Event.classifyCall, Event.classifyDone, Event.uploadCall f s.location,
         Event.uploadDone]) := by
  have htr : ∀ f, s.file = some f → jsTrim s.location ≠ "" →
      (handleSubmit env s).2 =
        [Event.classifyCall, Event.classifyDone, Event.uploadCall f s.location,
         Event.uploadDone] := by
    intro f hf hl
    rw [handleSubmit_guarded env s f hf hl]
    unfold submitCore
    cases hc : classifyOutcome env.token env.fetch <;>
      simp only [classifyAudio, classifyAudioState, finishSubmit, hc] <;>
      cases env.uploadResult <;> rfl
  have hflat : flightCountOk 0 (handleSubmit env s).2 = true ∧
      uploadsAfterClassifyDone false (handleSubmit env s).2 = true := by
    cases hsf : s.file with
    | none =>
      have h0 : (handleSubmit env s).2 = [] := by
        unfold handleSubmit
        rw [hsf]
      rw [h0]
      exact ⟨rfl, rfl⟩
    | some f =>
      by_cases hl : jsTrim s.location = ""
      · have h0 : (handleSubmit env s).2 = [] := by
          unfold handleSubmit
          rw [hsf]
          simp only [if_pos hl]
        rw [h0]
        exact ⟨rfl, rfl⟩
      · rw [htr f hsf hl]
        exact ⟨rfl, rfl⟩
  exact ⟨hflat.1, hflat.2, htr⟩

/-- Witness for C7 on a ready state. -/
theorem c7_sequential_witness :
    (handleSubmit envC3 sReady).2 =
      [Event.classifyCall, Event.classifyDone, Event.uploadCall fA sReady.location,
       Event.uploadDone] :=
  (c7_sequential envC3 sReady).2.2 fA rfl (by decide)

/-- C8 counterexample: with everything else equal, classifyAudio fails
precisely because VITE_HF_API_TOKEN is absent, and succeeds once a token
is set; so the claim that no operation inspects the variable or fails on
its absence is false. -/
theorem c8_counterexample :
    (classifyAudio envNoToken initialState).2.1 =
      Except.error "Classification failed: Hugging Face API token is not configured" ∧
    (classifyAudio { envNoToken with token := some "tok" } initialState).2.1 =
      Except.ok [cLow] :=
  ⟨rfl, rfl⟩

/-- C8 (amended): PORT is kept by the started server and never inspected
by a route (the route table is the same whatever its value); the frontend
token is read once and its format is never validated, but classifyAudio
does check its presence: with a falsy token it makes no request and
throws the not-configured message, with a truthy one it makes exactly one
request whatever the token contents. -/
theorem c8_env_vars (portEnv : Option String) (env : ClassifyEnv) (s : ComponentState) :
    (startBackend portEnv).handle = backendHandle ∧
    (tokenConfigured env.token = false →
      (classifyAudio env s).2.1 =
        Except.error "Classification failed: Hugging Face API token is not configured" ∧
      (classifyAudio env s).2.2 = 0) ∧
    (tokenConfigured env.token = true → (classifyAudio env s).2.2 = 1) := by
  refine ⟨rfl, ?_, ?_⟩
  · intro ht
    constructor
    · simp [classifyAudio, classifyOutcome, ht]
    · simp [classifyAudio, fetchCount, ht]
  · intro ht
    simp [classifyAudio, fetchCount, ht]

/-- Witness for C8 (amended) with an absent token. -/
theorem c8_env_vars_witness :
    (classifyAudio envNoToken initialState).2.1 =
      Except.error "Classification failed: Hugging Face API token is not configured" ∧
    (classifyAudio envNoToken initialState).2.2 = 0 :=
  (c8_env_vars none envNoToken initialState).2.1 rfl

/-- C10: after a submission whose onUpload promise resolves, the form is
reset: the pending file is null, the location is empty and the live
classificationResult is null, while dragActive, the only component state
besides these, the error and busy flags and the history, is untouched. -/
theorem c10_form_reset (env : SubmitEnv) (s : ComponentState) (f : FileData)
    (hf : s.file = some f) (hl : jsTrim s.location ≠ "")
    (hu : env.uploadResult = Except.ok ()) :
    (handleSubmit env s).1.file = none ∧
    (handleSubmit env s).1.location = "" ∧
    (handleSubmit env s).1.classificationResult = none ∧
    (handleSubmit env s).1.dragActive = s.dragActive := by
  rw [handleSubmit_guarded env s f hf hl]
  unfold submitCore
  cases hc : classifyOutcome env.token env.fetch <;>
    simp [classifyAudio, classifyAudioState, finishSubmit, hc, hu]

/-- Witness for C10 on a ready state with a resolving upload. -/
theorem c10_form_reset_witness :
    (handleSubmit envC3 sReady).1.file = none ∧
    (handleSubmit envC3 sReady).1.location = "" ∧
    (handleSubmit envC3 sReady).1.classificationResult = none ∧
    (handleSubmit envC3 sReady).1.dragActive = sReady.dragActive :=
  c10_form_reset envC3 sReady fA rfl (by decide) rfl
